import Mathlib

/-!
Verification development for the uber-mcp tool-dispatch server.

The definitions below are a shallow embedding of the server's
request-dispatch layer and of its port-forwarding tool:

* `handleMethod` embeds `MCPServer._handle_method` (src/mcp_server.py),
  the JSON-RPC method dispatcher;
* `handleMessage` embeds the `POST /mcp/v1/message` endpoint handler
  `handle_message` (src/mcp_server.py), including its parse-error and
  catch-all exception paths;
* `httpToolPost` embeds the per-tool `POST /tools/.../` routes that
  `create_app` (src/main.py) binds, and `registryNames` the registry
  built there;
* `bridgeHandleRequest` embeds `SimpleMCPBridge.handle_request`
  (src/mcp_stdio_bridge.py), the stdio transport bridge;
* `pfExecute` embeds `KubernetesPortForwardingTool.execute`
  (src/tools/kubernetes_port_forwarding.py) with its mutable
  forward map made explicit state.

JSON values are modelled by the inductive `Json` (numbers as integers:
no float appears in any modelled code path).  Python exceptions are
modelled by `PyExc`; a function that can raise returns `Except PyExc`.
External collaborators (the Kubernetes SDK, local sockets, the uuid
generator, the backing HTTP server of the stdio bridge, and the
`json.dumps` serializer) are modelled as explicit environment
parameters or as simple total functions; their exact rendering details
(string escaping inside `pyRepr`/`jsonDumps`) are not load-bearing for
any theorem.
-/

/-- JSON values as the dispatcher manipulates them. Objects keep field
order, matching Python dict insertion order; numbers are integers. -/
inductive Json where
  | str (s : String)
  | num (n : Int)
  | bool (b : Bool)
  | null
  | arr (xs : List Json)
  | obj (fields : List (String × Json))

namespace Json

mutual

/-- Boolean structural equality on `Json` (decidability helper). -/
def beqJ : Json → Json → Bool
  | .str a, .str b => a == b
  | .num a, .num b => a == b
  | .bool a, .bool b => a == b
  | .null, .null => true
  | .arr a, .arr b => beqL a b
  | .obj a, .obj b => beqF a b
  | _, _ => false

/-- Boolean equality on lists of `Json`. -/
def beqL : List Json → List Json → Bool
  | [], [] => true
  | x :: xs, y :: ys => beqJ x y && beqL xs ys
  | _, _ => false

/-- Boolean equality on field lists. -/
def beqF : List (String × Json) → List (String × Json) → Bool
  | [], [] => true
  | (k, v) :: xs, (l, w) :: ys => k == l && beqJ v w && beqF xs ys
  | _, _ => false

end

mutual

theorem beqJ_iff : ∀ a b : Json, beqJ a b = true ↔ a = b
  | .str a, .str b => by simp [beqJ]
  | .str _, .num _ => by simp [beqJ]
  | .str _, .bool _ => by simp [beqJ]
  | .str _, .null => by simp [beqJ]
  | .str _, .arr _ => by simp [beqJ]
  | .str _, .obj _ => by simp [beqJ]
  | .num _, .str _ => by simp [beqJ]
  | .num a, .num b => by simp [beqJ]
  | .num _, .bool _ => by simp [beqJ]
  | .num _, .null => by simp [beqJ]
  | .num _, .arr _ => by simp [beqJ]
  | .num _, .obj _ => by simp [beqJ]
  | .bool _, .str _ => by simp [beqJ]
  | .bool _, .num _ => by simp [beqJ]
  | .bool a, .bool b => by simp [beqJ]
  | .bool _, .null => by simp [beqJ]
  | .bool _, .arr _ => by simp [beqJ]
  | .bool _, .obj _ => by simp [beqJ]
  | .null, .str _ => by simp [beqJ]
  | .null, .num _ => by simp [beqJ]
  | .null, .bool _ => by simp [beqJ]
  | .null, .null => by simp [beqJ]
  | .null, .arr _ => by simp [beqJ]
  | .null, .obj _ => by simp [beqJ]
  | .arr _, .str _ => by simp [beqJ]
  | .arr _, .num _ => by simp [beqJ]
  | .arr _, .bool _ => by simp [beqJ]
  | .arr _, .null => by simp [beqJ]
  | .arr a, .arr b => by simp [beqJ, beqL_iff a b]
  | .arr _, .obj _ => by simp [beqJ]
  | .obj _, .str _ => by simp [beqJ]
  | .obj _, .num _ => by simp [beqJ]
  | .obj _, .bool _ => by simp [beqJ]
  | .obj _, .null => by simp [beqJ]
  | .obj _, .arr _ => by simp [beqJ]
  | .obj a, .obj b => by simp [beqJ, beqF_iff a b]

theorem beqL_iff : ∀ a b : List Json, beqL a b = true ↔ a = b
  | [], [] => by simp [beqL]
  | [], _ :: _ => by simp [beqL]
  | _ :: _, [] => by simp [beqL]
  | x :: xs, y :: ys => by
      simp [beqL, beqJ_iff x y, beqL_iff xs ys]

theorem beqF_iff : ∀ a b : List (String × Json), beqF a b = true ↔ a = b
  | [], [] => by simp [beqF]
  | [], _ :: _ => by simp [beqF]
  | _ :: _, [] => by simp [beqF]
  | (k, v) :: xs, (l, w) :: ys => by
      simp [beqF, beqJ_iff v w, beqF_iff xs ys, and_assoc]

end

instance instDecEqJson : DecidableEq Json := fun a b =>
  decidable_of_iff (beqJ a b = true) (beqJ_iff a b)

end Json

/-- Assoc-list lookup on JSON object fields; models Python dict lookup
(the modelled dicts carry unique keys). -/
def lookupField : List (String × Json) → String → Option Json
  | [], _ => none
  | (k, v) :: fs, key => if k = key then some v else lookupField fs key

/-- Dict key-membership test, as Python `key in d`. -/
def hasKey (fs : List (String × Json)) (key : String) : Bool :=
  (lookupField fs key).isSome

/-- Key membership of a JSON value (`false` for non-objects). -/
def jsonHasKey (j : Json) (key : String) : Bool :=
  match j with
  | .obj fs => hasKey fs key
  | _ => false

/-- Python type name of the value a `Json` models, as it appears in
runtime error messages. -/
def pyTypeName : Json → String
  | .str _ => "str"
  | .num _ => "int"
  | .bool _ => "bool"
  | .null => "NoneType"
  | .arr _ => "list"
  | .obj _ => "dict"

mutual

/-- Python `repr` of a modelled value (string escaping elided: no
modelled code path depends on it). -/
def pyRepr : Json → String
  | .str s => "'" ++ s ++ "'"
  | .num n => toString n
  | .bool b => if b then "True" else "False"
  | .null => "None"
  | .arr xs => "[" ++ String.intercalate ", " (pyReprList xs) ++ "]"
  | .obj fs => "\x7b" ++ String.intercalate ", " (pyReprFields fs) ++ "\x7d"

/-- Helper of `pyRepr` for array elements. -/
def pyReprList : List Json → List String
  | [] => []
  | x :: xs => pyRepr x :: pyReprList xs

/-- Helper of `pyRepr` for object fields. -/
def pyReprFields : List (String × Json) → List String
  | [] => []
  | (k, v) :: fs => ("'" ++ k ++ "': " ++ pyRepr v) :: pyReprFields fs

end

/-- Python `str` of a modelled value (`str` of a string is the string
itself, everything else as `repr`). -/
def pyStr : Json → String
  | .str s => s
  | j => pyRepr j

/-- Python `str` where `none` models the value `None` (a `dict.get`
miss), as interpolated by an f-string. -/
def pyStrOpt : Option Json → String
  | none => "None"
  | some j => pyStr j

mutual

/-- Model of the external `json.dumps` serializer applied to a tool
result before it is placed in a `tools/call` content block. The exact
whitespace and escaping of the Python serializer are not load-bearing
for any theorem and are not reproduced. -/
def jsonDumps : Json → String
  | .str s => "\"" ++ s ++ "\""
  | .num n => toString n
  | .bool b => if b then "true" else "false"
  | .null => "null"
  | .arr xs => "[" ++ String.intercalate ", " (jsonDumpsList xs) ++ "]"
  | .obj fs => "\x7b" ++ String.intercalate ", " (jsonDumpsFields fs) ++ "\x7d"

/-- Helper of `jsonDumps` for array elements. -/
def jsonDumpsList : List Json → List String
  | [] => []
  | x :: xs => jsonDumps x :: jsonDumpsList xs

/-- Helper of `jsonDumps` for object fields. -/
def jsonDumpsFields : List (String × Json) → List String
  | [] => []
  | (k, v) :: fs => ("\"" ++ k ++ "\": " ++ jsonDumps v) :: jsonDumpsFields fs

end

/-- Python truthiness of a value that may be absent (`none` models
`None`): empty string, zero, `False`, `None` and empty containers are
falsy. -/
def pyTruthy : Option Json → Bool
  | none => false
  | some (.str s) => if s = "" then false else true
  | some (.num n) => if n = 0 then false else true
  | some (.bool b) => b
  | some .null => false
  | some (.arr xs) => if xs = [] then false else true
  | some (.obj fs) => if fs = [] then false else true

/-- Python `int(x)` on a modelled value: identity on integers, `True`
and `False` become 1 and 0, strings are parsed as decimal integers,
everything else raises (`none`). -/
def pyToInt : Json → Option Int
  | .num n => some n
  | .bool b => some (if b then 1 else 0)
  | .str s => s.toInt?
  | _ => none

/-- Python exceptions as the dispatcher and the bridge distinguish
them: `AttributeError` has its own `except` clause in `_handle_method`,
and the two httpx failure families have their own clauses in
`SimpleMCPBridge.handle_request`; every other exception is caught by
the generic `except Exception`. -/
inductive PyExc where
  | attributeError (msg : String)
  | httpStatusError (msg : String)
  | httpNetworkError (msg : String)
  | otherError (msg : String)
  deriving DecidableEq

/-- Python `str(e)` of a modelled exception. -/
def PyExc.message : PyExc → String
  | .attributeError m => m
  | .httpStatusError m => m
  | .httpNetworkError m => m
  | .otherError m => m

instance instDecEqExceptJson {α : Type} [DecidableEq α] :
    DecidableEq (Except PyExc α) := fun a b =>
  match a, b with
  | .ok x, .ok y =>
      if h : x = y then .isTrue (by rw [h])
      else .isFalse (by intro c; cases c; exact h rfl)
  | .error x, .error y =>
      if h : x = y then .isTrue (by rw [h])
      else .isFalse (by intro c; cases c; exact h rfl)
  | .ok _, .error _ => .isFalse (by intro c; cases c)
  | .error _, .ok _ => .isFalse (by intro c; cases c)

/-- Tool descriptor: a registered name together with the tool's
`execute(kwargs) -> dict` capability. The ~45 individual tool bodies
are external collaborators of the dispatcher and stay abstract here;
the port-forwarding tool, whose behaviour is claimed directly, is
embedded separately below. An exception raised by `execute` is an
`Except.error`. -/
structure Tool where
  name : String
  execute : List (String × Json) → Except PyExc (List (String × Json))

/-- Python `x.get(key)`: field lookup when `x` is a dict, and an
`AttributeError` otherwise (this models `message.get(...)` applied to
a parsed JSON value that need not be an object). -/
def pyDictGet (j : Json) (key : String) : Except PyExc (Option Json) :=
  match j with
  | .obj fs => .ok (lookupField fs key)
  | other =>
      .error (.attributeError
        ("'" ++ pyTypeName other ++ "' object has no attribute 'get'"))

/-- JSON-RPC success envelope, key order as in the source dict
literals. -/
def mkResult (requestId : Json) (r : Json) : Json :=
  .obj [("jsonrpc", .str "2.0"), ("id", requestId), ("result", r)]

/-- JSON-RPC error envelope, key order as in the source dict
literals. -/
def mkError (requestId : Json) (code : Int) (msg : String) : Json :=
  .obj [("jsonrpc", .str "2.0"), ("id", requestId),
    ("error", .obj [("code", .num code), ("message", .str msg)])]

/-- Hard-coded `inputSchema` for `helminstall` in the `tools/list`
handler. -/
def schemaHelmInstall : Json :=
  .obj [("type", .str "object"),
    ("properties", .obj [
      ("release_name", .obj [("type", .str "string"),
        ("description", .str "Name for the release")]),
      ("chart", .obj [("type", .str "string"),
        ("description", .str "Chart to install (repo/chart or path)")]),
      ("namespace", .obj [("type", .str "string"), ("default", .str "default")]),
      ("values", .obj [("type", .str "object"),
        ("description", .str "Values to override")]),
      ("values_file", .obj [("type", .str "string"),
        ("description", .str "Path to values file")]),
      ("version", .obj [("type", .str "string"),
        ("description", .str "Chart version")]),
      ("create_namespace", .obj [("type", .str "boolean"), ("default", .bool true)]),
      ("wait", .obj [("type", .str "boolean"), ("default", .bool false)]),
      ("timeout", .obj [("type", .str "string"), ("default", .str "5m")]),
      ("atomic", .obj [("type", .str "boolean"), ("default", .bool false)]),
      ("dry_run", .obj [("type", .str "boolean"), ("default", .bool false)])]),
    ("required", .arr [.str "release_name", .str "chart"])]

/-- Hard-coded `inputSchema` for `helmlist`. -/
def schemaHelmList : Json :=
  .obj [("type", .str "object"),
    ("properties", .obj [
      ("namespace", .obj [("type", .str "string"),
        ("description", .str "Kubernetes namespace")]),
      ("all_namespaces", .obj [("type", .str "boolean"), ("default", .bool false)]),
      ("filter", .obj [("type", .str "string"),
        ("description", .str "Filter releases by name")]),
      ("output", .obj [("type", .str "string"),
        ("enum", .arr [.str "table", .str "json", .str "yaml"]),
        ("default", .str "table")]),
      ("all", .obj [("type", .str "boolean"), ("default", .bool false),
        ("description", .str "Show all releases")]),
      ("deployed", .obj [("type", .str "boolean"), ("default", .bool false)]),
      ("failed", .obj [("type", .str "boolean"), ("default", .bool false)]),
      ("pending", .obj [("type", .str "boolean"), ("default", .bool false)]),
      ("uninstalling", .obj [("type", .str "boolean"), ("default", .bool false)])])]

/-- Hard-coded `inputSchema` for `helmuninstall`. -/
def schemaHelmUninstall : Json :=
  .obj [("type", .str "object"),
    ("properties", .obj [
      ("release_name", .obj [("type", .str "string"),
        ("description", .str "Name of the release to uninstall")]),
      ("namespace", .obj [("type", .str "string"), ("default", .str "default")]),
      ("keep_history", .obj [("type", .str "boolean"), ("default", .bool false)]),
      ("dry_run", .obj [("type", .str "boolean"), ("default", .bool false)]),
      ("no_hooks", .obj [("type", .str "boolean"), ("default", .bool false)]),
      ("timeout", .obj [("type", .str "string"), ("default", .str "5m")]),
      ("wait", .obj [("type", .str "boolean"), ("default", .bool false)])]),
    ("required", .arr [.str "release_name"])]

/-- Hard-coded `inputSchema` for `helmupgrade`. -/
def schemaHelmUpgrade : Json :=
  .obj [("type", .str "object"),
    ("properties", .obj [
      ("release_name", .obj [("type", .str "string"),
        ("description", .str "Name of the release to upgrade")]),
      ("chart", .obj [("type", .str "string"),
        ("description", .str "Chart to upgrade to")]),
      ("namespace", .obj [("type", .str "string"), ("default", .str "default")]),
      ("values", .obj [("type", .str "object"),
        ("description", .str "Values to override")]),
      ("values_file", .obj [("type", .str "string"),
        ("description", .str "Path to values file")]),
      ("version", .obj [("type", .str "string"),
        ("description", .str "Chart version")]),
      ("install", .obj [("type", .str "boolean"), ("default", .bool true),
        ("description", .str "Install if release doesn't exist")]),
      ("force", .obj [("type", .str "boolean"), ("default", .bool false)]),
      ("recreate_pods", .obj [("type", .str "boolean"), ("default", .bool false)]),
      ("wait", .obj [("type", .str "boolean"), ("default", .bool false)]),
      ("timeout", .obj [("type", .str "string"), ("default", .str "5m")]),
      ("atomic", .obj [("type", .str "boolean"), ("default", .bool false)]),
      ("cleanup_on_fail", .obj [("type", .str "boolean"), ("default", .bool false)]),
      ("dry_run", .obj [("type", .str "boolean"), ("default", .bool false)]),
      ("reset_values", .obj [("type", .str "boolean"), ("default", .bool false)]),
      ("reuse_values", .obj [("type", .str "boolean"), ("default", .bool false)])]),
    ("required", .arr [.str "release_name", .str "chart"])]

/-- Hard-coded `inputSchema` for `helmrollback`. -/
def schemaHelmRollback : Json :=
  .obj [("type", .str "object"),
    ("properties", .obj [
      ("release_name", .obj [("type", .str "string"),
        ("description", .str "Name of the release to rollback")]),
      ("revision", .obj [("type", .str "integer"),
        ("description", .str "Revision to rollback to")]),
      ("namespace", .obj [("type", .str "string"), ("default", .str "default")]),
      ("force", .obj [("type", .str "boolean"), ("default", .bool false)]),
      ("recreate_pods", .obj [("type", .str "boolean"), ("default", .bool false)]),
      ("wait", .obj [("type", .str "boolean"), ("default", .bool false)]),
      ("timeout", .obj [("type", .str "string"), ("default", .str "5m")]),
      ("cleanup_on_fail", .obj [("type", .str "boolean"), ("default", .bool false)]),
      ("dry_run", .obj [("type", .str "boolean"), ("default", .bool false)])]),
    ("required", .arr [.str "release_name"])]

/-- Hard-coded `inputSchema` for `helmstatus`. -/
def schemaHelmStatus : Json :=
  .obj [("type", .str "object"),
    ("properties", .obj [
      ("release_name", .obj [("type", .str "string"),
        ("description", .str "Name of the release")]),
      ("namespace", .obj [("type", .str "string"), ("default", .str "default")]),
      ("revision", .obj [("type", .str "integer"),
        ("description", .str "Specific revision")]),
      ("output", .obj [("type", .str "string"),
        ("enum", .arr [.str "json", .str "yaml", .str "table"]),
        ("default", .str "json")]),
      ("show_desc", .obj [("type", .str "boolean"), ("default", .bool false)])]),
    ("required", .arr [.str "release_name"])]

/-- Hard-coded `inputSchema` for `helmhistory`. -/
def schemaHelmHistory : Json :=
  .obj [("type", .str "object"),
    ("properties", .obj [
      ("release_name", .obj [("type", .str "string"),
        ("description", .str "Name of the release")]),
      ("namespace", .obj [("type", .str "string"), ("default", .str "default")]),
      ("max", .obj [("type", .str "integer"),
        ("description", .str "Maximum number of revisions")]),
      ("output", .obj [("type", .str "string"),
        ("enum", .arr [.str "table", .str "json", .str "yaml"]),
        ("default", .str "table")])]),
    ("required", .arr [.str "release_name"])]

/-- Hard-coded `inputSchema` for `helmget`. -/
def schemaHelmGet : Json :=
  .obj [("type", .str "object"),
    ("properties", .obj [
      ("action", .obj [("type", .str "string"),
        ("enum", .arr [.str "values", .str "manifest", .str "notes",
          .str "hooks", .str "all"]),
        ("default", .str "values")]),
      ("release_name", .obj [("type", .str "string"),
        ("description", .str "Name of the release")]),
      ("namespace", .obj [("type", .str "string"), ("default", .str "default")]),
      ("revision", .obj [("type", .str "integer"),
        ("description", .str "Specific revision")]),
      ("output", .obj [("type", .str "string"),
        ("enum", .arr [.str "json", .str "yaml"]),
        ("description", .str "Output format for values")])]),
    ("required", .arr [.str "release_name"])]

/-- Hard-coded `inputSchema` for `helmrepo`. -/
def schemaHelmRepo : Json :=
  .obj [("type", .str "object"),
    ("properties", .obj [
      ("action", .obj [("type", .str "string"),
        ("enum", .arr [.str "add", .str "remove", .str "list",
          .str "update", .str "index"]),
        ("default", .str "list")]),
      ("repo_name", .obj [("type", .str "string"),
        ("description", .str "Repository name")]),
      ("repo_url", .obj [("type", .str "string"),
        ("description", .str "Repository URL")]),
      ("username", .obj [("type", .str "string"),
        ("description", .str "Username for authentication")]),
      ("password", .obj [("type", .str "string"),
        ("description", .str "Password for authentication")]),
      ("force_update", .obj [("type", .str "boolean"), ("default", .bool false)]),
      ("insecure_skip_tls_verify", .obj [("type", .str "boolean"),
        ("default", .bool false)]),
      ("directory", .obj [("type", .str "string"), ("default", .str "."),
        ("description", .str "Directory for index action")])])]

/-- Hard-coded `inputSchema` for `helmsearch`. -/
def schemaHelmSearch : Json :=
  .obj [("type", .str "object"),
    ("properties", .obj [
      ("search_type", .obj [("type", .str "string"),
        ("enum", .arr [.str "repo", .str "hub"]),
        ("default", .str "repo")]),
      ("keyword", .obj [("type", .str "string"),
        ("description", .str "Search keyword")]),
      ("version", .obj [("type", .str "string"),
        ("description", .str "Version constraint")]),
      ("versions", .obj [("type", .str "boolean"), ("default", .bool false),
        ("description", .str "Show all versions")]),
      ("output", .obj [("type", .str "string"),
        ("enum", .arr [.str "table", .str "json", .str "yaml"]),
        ("default", .str "table")]),
      ("devel", .obj [("type", .str "boolean"), ("default", .bool false),
        ("description", .str "Include development versions")]),
      ("max_col_width", .obj [("type", .str "integer"), ("default", .num 50)])])]

/-- Hard-coded `inputSchema` for `helmshow`. -/
def schemaHelmShow : Json :=
  .obj [("type", .str "object"),
    ("properties", .obj [
      ("show_type", .obj [("type", .str "string"),
        ("enum", .arr [.str "all", .str "chart", .str "readme",
          .str "values", .str "crds"]),
        ("default", .str "all")]),
      ("chart", .obj [("type", .str "string"),
        ("description", .str "Chart to show (repo/chart or path)")]),
      ("version", .obj [("type", .str "string"),
        ("description", .str "Chart version")]),
      ("devel", .obj [("type", .str "boolean"), ("default", .bool false)]),
      ("verify", .obj [("type", .str "boolean"), ("default", .bool false)]),
      ("keyring", .obj [("type", .str "string"),
        ("description", .str "Path to keyring for verification")]),
      ("repo", .obj [("type", .str "string"),
        ("description", .str "Repository URL")]),
      ("username", .obj [("type", .str "string"),
        ("description", .str "Username for authentication")]),
      ("password", .obj [("type", .str "string"),
        ("description", .str "Password for authentication")])]),
    ("required", .arr [.str "chart"])]

/-- Hard-coded `inputSchema` for `kubernetescreate`. -/
def schemaK8sCreate : Json :=
  .obj [("type", .str "object"),
    ("properties", .obj [
      ("yaml_content", .obj [("type", .str "string"),
        ("description", .str "YAML content of resources to create")]),
      ("namespace", .obj [("type", .str "string"), ("default", .str "default"),
        ("description", .str "Default namespace for resources")])]),
    ("required", .arr [.str "yaml_content"])]

/-- Hard-coded `inputSchema` for `kubernetesexpose`. -/
def schemaK8sExpose : Json :=
  .obj [("type", .str "object"),
    ("properties", .obj [
      ("resource_type", .obj [("type", .str "string"),
        ("default", .str "deployment"),
        ("description", .str "Type of resource to expose")]),
      ("resource_name", .obj [("type", .str "string"),
        ("description", .str "Name of resource to expose")]),
      ("namespace", .obj [("type", .str "string"), ("default", .str "default")]),
      ("service_name", .obj [("type", .str "string"),
        ("description", .str "Name for the new service")]),
      ("port", .obj [("type", .str "integer"), ("default", .num 80)]),
      ("target_port", .obj [("type", .str "integer"),
        ("description", .str "Target port on the pod")]),
      ("service_type", .obj [("type", .str "string"),
        ("default", .str "ClusterIP"),
        ("enum", .arr [.str "ClusterIP", .str "NodePort", .str "LoadBalancer"])])]),
    ("required", .arr [.str "resource_name"])]

/-- Hard-coded `inputSchema` for `kubernetesrun`. -/
def schemaK8sRun : Json :=
  .obj [("type", .str "object"),
    ("properties", .obj [
      ("name", .obj [("type", .str "string"),
        ("description", .str "Name for the deployment")]),
      ("image", .obj [("type", .str "string"),
        ("description", .str "Container image to run")]),
      ("namespace", .obj [("type", .str "string"), ("default", .str "default")]),
      ("replicas", .obj [("type", .str "integer"), ("default", .num 1)]),
      ("port", .obj [("type", .str "integer"),
        ("description", .str "Container port to expose")]),
      ("env", .obj [("type", .str "object"),
        ("description", .str "Environment variables")]),
      ("labels", .obj [("type", .str "object"),
        ("description", .str "Labels to apply")]),
      ("command", .obj [("type", .str "array"),
        ("items", .obj [("type", .str "string")])]),
      ("args", .obj [("type", .str "array"),
        ("items", .obj [("type", .str "string")])])]),
    ("required", .arr [.str "name", .str "image"])]

/-- Hard-coded `inputSchema` for `kubernetesset`. -/
def schemaK8sSet : Json :=
  .obj [("type", .str "object"),
    ("properties", .obj [
      ("resource_type", .obj [("type", .str "string"),
        ("default", .str "deployment")]),
      ("resource_name", .obj [("type", .str "string")]),
      ("namespace", .obj [("type", .str "string"), ("default", .str "default")]),
      ("set_type", .obj [("type", .str "string"),
        ("enum", .arr [.str "image", .str "resources", .str "env"]),
        ("default", .str "image")]),
      ("container_name", .obj [("type", .str "string"),
        ("description", .str "Container name (optional)")]),
      ("image", .obj [("type", .str "string"),
        ("description", .str "New image (for set_type=image)")]),
      ("limits", .obj [("type", .str "object"),
        ("description", .str "Resource limits (for set_type=resources)")]),
      ("requests", .obj [("type", .str "object"),
        ("description", .str "Resource requests (for set_type=resources)")]),
      ("env", .obj [("type", .str "object"),
        ("description", .str "Environment variables (for set_type=env)")])]),
    ("required", .arr [.str "resource_name"])]

/-- Hard-coded `inputSchema` for `kubernetesget`. -/
def schemaK8sGet : Json :=
  .obj [("type", .str "object"),
    ("properties", .obj [
      ("resource_type", .obj [("type", .str "string"), ("default", .str "pods"),
        ("description", .str "Type of resource to get")]),
      ("namespace", .obj [("type", .str "string"),
        ("description", .str "Namespace to filter by")]),
      ("name", .obj [("type", .str "string"),
        ("description", .str "Specific resource name")]),
      ("label_selector", .obj [("type", .str "string"),
        ("description", .str "Label selector")]),
      ("field_selector", .obj [("type", .str "string"),
        ("description", .str "Field selector")])])]

/-- Hard-coded `inputSchema` for `kubernetesdelete`. -/
def schemaK8sDelete : Json :=
  .obj [("type", .str "object"),
    ("properties", .obj [
      ("resource_type", .obj [("type", .str "string"),
        ("description", .str "Type of resource to delete")]),
      ("name", .obj [("type", .str "string"),
        ("description", .str "Resource name to delete")]),
      ("namespace", .obj [("type", .str "string"), ("default", .str "default")]),
      ("label_selector", .obj [("type", .str "string"),
        ("description", .str "Delete by label selector")]),
      ("force", .obj [("type", .str "boolean"), ("default", .bool false)]),
      ("grace_period", .obj [("type", .str "integer"),
        ("description", .str "Grace period in seconds")])]),
    ("required", .arr [.str "resource_type"])]

/-- Hard-coded `inputSchema` for `kubernetesscale`. -/
def schemaK8sScale : Json :=
  .obj [("type", .str "object"),
    ("properties", .obj [
      ("resource_type", .obj [("type", .str "string"),
        ("default", .str "deployment")]),
      ("name", .obj [("type", .str "string"),
        ("description", .str "Resource name to scale")]),
      ("namespace", .obj [("type", .str "string"), ("default", .str "default")]),
      ("replicas", .obj [("type", .str "integer"), ("minimum", .num 0)])]),
    ("required", .arr [.str "name", .str "replicas"])]

/-- Hard-coded `inputSchema` for `kubernetesdescribe`. -/
def schemaK8sDescribe : Json :=
  .obj [("type", .str "object"),
    ("properties", .obj [
      ("resource_type", .obj [("type", .str "string"),
        ("description", .str "Type of resource to describe")]),
      ("name", .obj [("type", .str "string"),
        ("description", .str "Resource name")]),
      ("namespace", .obj [("type", .str "string"), ("default", .str "default")])]),
    ("required", .arr [.str "resource_type", .str "name"])]

/-- Hard-coded `inputSchema` for `kuberneteslogs`. -/
def schemaK8sLogs : Json :=
  .obj [("type", .str "object"),
    ("properties", .obj [
      ("pod_name", .obj [("type", .str "string"),
        ("description", .str "Pod name")]),
      ("namespace", .obj [("type", .str "string"), ("default", .str "default")]),
      ("container", .obj [("type", .str "string"),
        ("description", .str "Container name")]),
      ("previous", .obj [("type", .str "boolean"), ("default", .bool false)]),
      ("tail_lines", .obj [("type", .str "integer"),
        ("description", .str "Number of lines from end")]),
      ("since_seconds", .obj [("type", .str "integer"),
        ("description", .str "Logs since N seconds ago")]),
      ("timestamps", .obj [("type", .str "boolean"), ("default", .bool false)])]),
    ("required", .arr [.str "pod_name"])]

/-- Hard-coded `inputSchema` for `kubernetesexec`. -/
def schemaK8sExec : Json :=
  .obj [("type", .str "object"),
    ("properties", .obj [
      ("pod_name", .obj [("type", .str "string"),
        ("description", .str "Pod name")]),
      ("namespace", .obj [("type", .str "string"), ("default", .str "default")]),
      ("container", .obj [("type", .str "string"),
        ("description", .str "Container name")]),
      ("command", .obj [("type", .str "array"),
        ("items", .obj [("type", .str "string")]),
        ("description", .str "Command to execute")]),
      ("stdin", .obj [("type", .str "string"),
        ("description", .str "Input to send to command")]),
      ("tty", .obj [("type", .str "boolean"), ("default", .bool false)])]),
    ("required", .arr [.str "pod_name", .str "command"])]

/-- Hard-coded `inputSchema` for `kubernetesapply`. -/
def schemaK8sApply : Json :=
  .obj [("type", .str "object"),
    ("properties", .obj [
      ("yaml_content", .obj [("type", .str "string"),
        ("description", .str "YAML content to apply")]),
      ("namespace", .obj [("type", .str "string"), ("default", .str "default")])]),
    ("required", .arr [.str "yaml_content"])]

/-- Hard-coded `inputSchema` for `kubernetesportforwarding`. -/
def schemaK8sPortForwarding : Json :=
  .obj [("type", .str "object"),
    ("properties", .obj [
      ("action", .obj [("type", .str "string"),
        ("enum", .arr [.str "start", .str "stop", .str "list"]),
        ("default", .str "start")]),
      ("pod_name", .obj [("type", .str "string")]),
      ("namespace", .obj [("type", .str "string")]),
      ("local_port", .obj [("type", .str "integer")]),
      ("remote_port", .obj [("type", .str "integer")]),
      ("forward_id", .obj [("type", .str "string")])])]

/-- Hard-coded `inputSchema` for `kubernetesexplain`. -/
def schemaK8sExplain : Json :=
  .obj [("type", .str "object"),
    ("properties", .obj [
      ("resource", .obj [("type", .str "string"),
        ("description", .str "Resource type to explain (e.g., pod, deployment)")]),
      ("api_version", .obj [("type", .str "string"),
        ("description", .str "API version (optional)")])]),
    ("required", .arr [.str "resource"])]

/-- Hard-coded `inputSchema` for `kubernetesedit`. -/
def schemaK8sEdit : Json :=
  .obj [("type", .str "object"),
    ("properties", .obj [
      ("resource_type", .obj [("type", .str "string"),
        ("description", .str "Type of resource to edit")]),
      ("name", .obj [("type", .str "string"),
        ("description", .str "Resource name")]),
      ("namespace", .obj [("type", .str "string"), ("default", .str "default")]),
      ("edit_type", .obj [("type", .str "string"),
        ("enum", .arr [.str "merge", .str "replace"]),
        ("default", .str "merge")]),
      ("changes", .obj [("type", .str "object"),
        ("description", .str "Changes to apply")])]),
    ("required", .arr [.str "resource_type", .str "name", .str "changes"])]

/-- Hard-coded `inputSchema` for `kubernetesrollout`. -/
def schemaK8sRollout : Json :=
  .obj [("type", .str "object"),
    ("properties", .obj [
      ("action", .obj [("type", .str "string"),
        ("enum", .arr [.str "status", .str "history", .str "undo",
          .str "pause", .str "resume", .str "restart"]),
        ("default", .str "status")]),
      ("resource_type", .obj [("type", .str "string"),
        ("default", .str "deployment")]),
      ("name", .obj [("type", .str "string"),
        ("description", .str "Resource name")]),
      ("namespace", .obj [("type", .str "string"), ("default", .str "default")]),
      ("revision", .obj [("type", .str "integer"),
        ("description", .str "Revision number for undo")])]),
    ("required", .arr [.str "name"])]

/-- Hard-coded `inputSchema` for `kubernetesautoscale`. -/
def schemaK8sAutoscale : Json :=
  .obj [("type", .str "object"),
    ("properties", .obj [
      ("action", .obj [("type", .str "string"),
        ("enum", .arr [.str "create", .str "delete", .str "get"]),
        ("default", .str "create")]),
      ("resource_type", .obj [("type", .str "string"),
        ("default", .str "deployment")]),
      ("resource_name", .obj [("type", .str "string"),
        ("description", .str "Resource to autoscale")]),
      ("namespace", .obj [("type", .str "string"), ("default", .str "default")]),
      ("min_replicas", .obj [("type", .str "integer"), ("default", .num 1),
        ("minimum", .num 1)]),
      ("max_replicas", .obj [("type", .str "integer"), ("default", .num 10),
        ("minimum", .num 1)]),
      ("target_cpu_percent", .obj [("type", .str "integer"), ("default", .num 80),
        ("minimum", .num 1), ("maximum", .num 100)]),
      ("target_memory_percent", .obj [("type", .str "integer"),
        ("minimum", .num 1), ("maximum", .num 100)]),
      ("hpa_name", .obj [("type", .str "string"),
        ("description", .str "HPA name")])])]

/-- Hard-coded `inputSchema` for `kubernetesclusterinfo`. -/
def schemaK8sClusterInfo : Json :=
  .obj [("type", .str "object"), ("properties", .obj [])]

/-- Hard-coded `inputSchema` for `kubernetestop`. -/
def schemaK8sTop : Json :=
  .obj [("type", .str "object"),
    ("properties", .obj [
      ("resource_type", .obj [("type", .str "string"), ("default", .str "pods"),
        ("enum", .arr [.str "pods", .str "nodes"])]),
      ("namespace", .obj [("type", .str "string"),
        ("description", .str "Namespace (for pods)")]),
      ("sort_by", .obj [("type", .str "string"), ("default", .str "cpu"),
        ("enum", .arr [.str "cpu", .str "memory"])])])]

/-- Hard-coded `inputSchema` for `kubernetesnodemanagement`. -/
def schemaK8sNodeManagement : Json :=
  .obj [("type", .str "object"),
    ("properties", .obj [
      ("action", .obj [("type", .str "string"),
        ("enum", .arr [.str "cordon", .str "uncordon", .str "drain",
          .str "taint"])]),
      ("node_name", .obj [("type", .str "string"),
        ("description", .str "Node name")]),
      ("ignore_daemonsets", .obj [("type", .str "boolean"), ("default", .bool true)]),
      ("delete_emptydir_data", .obj [("type", .str "boolean"),
        ("default", .bool true)]),
      ("force", .obj [("type", .str "boolean"), ("default", .bool false)]),
      ("grace_period", .obj [("type", .str "integer"), ("default", .num 30)]),
      ("taint_action", .obj [("type", .str "string"),
        ("enum", .arr [.str "add", .str "remove"]),
        ("default", .str "add")]),
      ("key", .obj [("type", .str "string"),
        ("description", .str "Taint key")]),
      ("value", .obj [("type", .str "string"),
        ("description", .str "Taint value")]),
      ("effect", .obj [("type", .str "string"),
        ("enum", .arr [.str "NoSchedule", .str "PreferNoSchedule",
          .str "NoExecute"]),
        ("default", .str "NoSchedule")])]),
    ("required", .arr [.str "action", .str "node_name"])]

/-- Hard-coded `inputSchema` for `kubernetescp`. -/
def schemaK8sCp : Json :=
  .obj [("type", .str "object"),
    ("properties", .obj [
      ("pod_name", .obj [("type", .str "string"),
        ("description", .str "Pod name")]),
      ("namespace", .obj [("type", .str "string"), ("default", .str "default")]),
      ("container", .obj [("type", .str "string"),
        ("description", .str "Container name")]),
      ("src_path", .obj [("type", .str "string"),
        ("description", .str "Source path")]),
      ("dst_path", .obj [("type", .str "string"),
        ("description", .str "Destination path")]),
      ("direction", .obj [("type", .str "string"),
        ("enum", .arr [.str "to", .str "from"]),
        ("default", .str "to"),
        ("description", .str "Copy direction: to (local->pod) or from (pod->local)")])]),
    ("required", .arr [.str "pod_name", .str "src_path", .str "dst_path"])]

/-- Hard-coded `inputSchema` for `kubernetespatch`. -/
def schemaK8sPatch : Json :=
  .obj [("type", .str "object"),
    ("properties", .obj [
      ("resource_type", .obj [("type", .str "string"),
        ("description", .str "Type of resource to patch")]),
      ("name", .obj [("type", .str "string"),
        ("description", .str "Resource name")]),
      ("namespace", .obj [("type", .str "string"), ("default", .str "default")]),
      ("patch", .obj [("type", .arr [.str "object", .str "array"]),
        ("description", .str "Patch to apply")]),
      ("patch_type", .obj [("type", .str "string"),
        ("enum", .arr [.str "strategic", .str "merge", .str "json"]),
        ("default", .str "strategic")])]),
    ("required", .arr [.str "resource_type", .str "name", .str "patch"])]

/-- Hard-coded `inputSchema` for `kuberneteslabel`. -/
def schemaK8sLabel : Json :=
  .obj [("type", .str "object"),
    ("properties", .obj [
      ("resource_type", .obj [("type", .str "string"),
        ("description", .str "Type of resource to label")]),
      ("name", .obj [("type", .str "string"),
        ("description", .str "Resource name")]),
      ("namespace", .obj [("type", .str "string"), ("default", .str "default")]),
      ("labels", .obj [("type", .str "object"),
        ("description", .str "Labels to add/update")]),
      ("remove_labels", .obj [("type", .str "array"),
        ("items", .obj [("type", .str "string")]),
        ("description", .str "Label keys to remove")]),
      ("overwrite", .obj [("type", .str "boolean"), ("default", .bool false),
        ("description", .str "Replace all labels")])]),
    ("required", .arr [.str "resource_type", .str "name"])]

/-- Hard-coded `inputSchema` for `kubernetesannotate`. -/
def schemaK8sAnnotate : Json :=
  .obj [("type", .str "object"),
    ("properties", .obj [
      ("resource_type", .obj [("type", .str "string"),
        ("description", .str "Type of resource to annotate")]),
      ("name", .obj [("type", .str "string"),
        ("description", .str "Resource name")]),
      ("namespace", .obj [("type", .str "string"), ("default", .str "default")]),
      ("annotations", .obj [("type", .str "object"),
        ("description", .str "Annotations to add/update")]),
      ("remove_annotations", .obj [("type", .str "array"),
        ("items", .obj [("type", .str "string")]),
        ("description", .str "Annotation keys to remove")]),
      ("overwrite", .obj [("type", .str "boolean"), ("default", .bool false),
        ("description", .str "Replace all annotations")])]),
    ("required", .arr [.str "resource_type", .str "name"])]

/-- Hard-coded `inputSchema` shared by `kubernetespods`,
`kubernetesdeployments` and `kubernetesservices` (the final membership
branch of the conditional). -/
def schemaNamespaceFilter : Json :=
  .obj [("type", .str "object"),
    ("properties", .obj [
      ("namespace", .obj [("type", .str "string"),
        ("description", .str "Kubernetes namespace to filter by (optional)")])])]

/-- Generic permissive fallback `inputSchema` that `tools/list` starts
every entry with and keeps for any tool name no branch recognizes. -/
def genericSchema : Json :=
  .obj [("type", .str "object"), ("properties", .obj []),
    ("additionalProperties", .bool true)]

/-- Per-name schema selection of the `tools/list` handler: the entry
starts from `genericSchema` and the if/elif chain (source order
preserved) overrides it for the recognized tool names; the final
branch recognizes three names sharing one schema. -/
def toolSchemaFor (name : String) : Json :=
  if name = "helminstall" then schemaHelmInstall
  else if name = "helmlist" then schemaHelmList
  else if name = "helmuninstall" then schemaHelmUninstall
  else if name = "helmupgrade" then schemaHelmUpgrade
  else if name = "helmrollback" then schemaHelmRollback
  else if name = "helmstatus" then schemaHelmStatus
  else if name = "helmhistory" then schemaHelmHistory
  else if name = "helmget" then schemaHelmGet
  else if name = "helmrepo" then schemaHelmRepo
  else if name = "helmsearch" then schemaHelmSearch
  else if name = "helmshow" then schemaHelmShow
  else if name = "kubernetescreate" then schemaK8sCreate
  else if name = "kubernetesexpose" then schemaK8sExpose
  else if name = "kubernetesrun" then schemaK8sRun
  else if name = "kubernetesset" then schemaK8sSet
  else if name = "kubernetesget" then schemaK8sGet
  else if name = "kubernetesdelete" then schemaK8sDelete
  else if name = "kubernetesscale" then schemaK8sScale
  else if name = "kubernetesdescribe" then schemaK8sDescribe
  else if name = "kuberneteslogs" then schemaK8sLogs
  else if name = "kubernetesexec" then schemaK8sExec
  else if name = "kubernetesapply" then schemaK8sApply
  else if name = "kubernetesportforwarding" then schemaK8sPortForwarding
  else if name = "kubernetesexplain" then schemaK8sExplain
  else if name = "kubernetesedit" then schemaK8sEdit
  else if name = "kubernetesrollout" then schemaK8sRollout
  else if name = "kubernetesautoscale" then schemaK8sAutoscale
  else if name = "kubernetesclusterinfo" then schemaK8sClusterInfo
  else if name = "kubernetestop" then schemaK8sTop
  else if name = "kubernetesnodemanagement" then schemaK8sNodeManagement
  else if name = "kubernetescp" then schemaK8sCp
  else if name = "kubernetespatch" then schemaK8sPatch
  else if name = "kuberneteslabel" then schemaK8sLabel
  else if name = "kubernetesannotate" then schemaK8sAnnotate
  else if name ∈ ["kubernetespods", "kubernetesdeployments", "kubernetesservices"]
    then schemaNamespaceFilter
  else genericSchema

/-- One `tools/list` entry for a registered tool name: the dict the
loop body of the handler appends. -/
def toolEntry (name : String) : Json :=
  .obj [("name", .str name),
    ("description", .str ("Kubernetes tool: " ++ name)),
    ("inputSchema", toolSchemaFor name)]

/-- All `tools/list` entries, one per registered tool, in registry
order. -/
def toolsListEntries (names : List String) : List Json :=
  names.map toolEntry

/-- Result of the `initialize` method: protocol version, static
capabilities and server identity. -/
def initResponse (requestId : Json) : Json :=
  mkResult requestId (.obj [
    ("protocolVersion", .str "2024-11-05"),
    ("capabilities", .obj [
      ("tools", .obj []),
      ("resources", .obj [("subscribe", .bool false),
        ("listChanged", .bool false)])]),
    ("serverInfo", .obj [("name", .str "uber-mcp-server"),
      ("version", .str "0.1.0")])])

/-- Registry lookup of the `tools/call` branch: the first registered
tool whose `name` equals the request's `name` parameter (a raw JSON
value that may be absent, so a non-string never matches). -/
def findTool (tools : List Tool) (toolName : Option Json) : Option Tool :=
  tools.find? (fun t => decide (toolName = some (.str t.name)))

/-- Python `tool.execute(**arguments)`: unpacking requires a mapping,
so a non-object raises a `TypeError` (caught by the same generic
handler as any other tool exception). -/
def callToolExecute (t : Tool) (arguments : Json) :
    Except PyExc (List (String × Json)) :=
  match arguments with
  | .obj fs => t.execute fs
  | other =>
      .error (.otherError
        ("argument of type '" ++ pyTypeName other ++ "' is not a mapping"))

/-- Successful `tools/call` result envelope: the tool's dict is
serialized into one text content block, and `isError` reports whether
the dict carries an `error` key. -/
def callSuccess (requestId : Json) (result : List (String × Json)) : Json :=
  mkResult requestId (.obj [
    ("content", .arr [.obj [("type", .str "text"),
      ("text", .str (jsonDumps (.obj result)))]]),
    ("isError", .bool (hasKey result "error"))])

/-- Outcome wrapping of a `tools/call` execution: a returned dict
becomes a success envelope; a raised `AttributeError` becomes a -32602
configuration error and any other exception a -32603 execution error,
each with a fixed prefix before the exception's message. -/
def callOutcomeResponse (requestId : Json) :
    Except PyExc (List (String × Json)) → Json
  | .ok result => callSuccess requestId result
  | .error (.attributeError m) =>
      mkError requestId (-32602) ("Tool configuration error: " ++ m)
  | .error e =>
      mkError requestId (-32603) ("Tool execution error: " ++ e.message)

/-- Embedding of `MCPServer._handle_method`: routes one JSON-RPC
request to the four method handlers or the -32601 fallback. `method`
is the raw value of the request's `method` key (absent allowed);
`params` is the raw `params` value, whose field accesses can raise
when it is not an object (an `Except.error` models an exception
propagating out of `_handle_method`). -/
def handleMethod (tools : List Tool) (method : Option Json) (params : Json)
    (requestId : Json) : Except PyExc Json :=
  if method = some (.str "initialize") then .ok (initResponse requestId)
  else if method = some (.str "initialized") then
    .ok (mkResult requestId (.obj []))
  else if method = some (.str "tools/list") then
    .ok (mkResult requestId
      (.obj [("tools", .arr (toolsListEntries (tools.map Tool.name)))]))
  else if method = some (.str "tools/call") then
    match pyDictGet params "name" with
    | .error e => .error e
    | .ok toolName =>
      match pyDictGet params "arguments" with
      | .error e => .error e
      | .ok argsOpt =>
        let arguments := argsOpt.getD (.obj [])
        match findTool tools toolName with
        | none =>
            .ok (mkError requestId (-32602)
              ("Tool not found: " ++ pyStrOpt toolName))
        | some t =>
            .ok (callOutcomeResponse requestId (callToolExecute t arguments))
  else
    .ok (mkError requestId (-32601)
      ("Method not found: " ++ pyStrOpt method))

/-- HTTP-level response of the `/mcp/v1/message` endpoint. -/
structure HttpResponse where
  status : Nat
  body : Json
  deriving DecidableEq

/-- Body of the -32700 response for a request whose body is not valid
JSON (no `id` key, exactly as the source dict literal). -/
def parseErrorBody : Json :=
  .obj [("jsonrpc", .str "2.0"),
    ("error", .obj [("code", .num (-32700)), ("message", .str "Parse error")])]

/-- Body of the catch-all -32603 response built from `str(e)` of the
uncaught exception (no `id` key, exactly as the source dict
literal). -/
def internalErrorBody (msg : String) : Json :=
  .obj [("jsonrpc", .str "2.0"),
    ("error", .obj [("code", .num (-32603)), ("message", .str msg)])]

/-- Embedding of the `handle_message` endpoint handler for
`POST /mcp/v1/message`. The request body is `none` when `json.loads`
fails (the `JSONDecodeError` path, HTTP 400); otherwise the parsed
value's `method`/`params`/`id` accesses and the dispatch run inside
the generic `except Exception` handler, which yields HTTP 500 with a
-32603 body; a normal dispatch outcome is returned with HTTP 200. -/
def handleMessage (tools : List Tool) (body : Option Json) : HttpResponse :=
  match body with
  | none => ⟨400, parseErrorBody⟩
  | some message =>
    match pyDictGet message "method" with
    | .error e => ⟨500, internalErrorBody e.message⟩
    | .ok method =>
      match pyDictGet message "params" with
      | .error e => ⟨500, internalErrorBody e.message⟩
      | .ok paramsOpt =>
        let params := paramsOpt.getD (.obj [])
        match pyDictGet message "id" with
        | .error e => ⟨500, internalErrorBody e.message⟩
        | .ok idOpt =>
          let requestId := idOpt.getD .null
          match handleMethod tools method params requestId with
          | .ok resp => ⟨200, resp⟩
          | .error e => ⟨500, internalErrorBody e.message⟩

/-- Names of the 46 tools `create_app` (src/main.py) registers, in
registry construction order. -/
def registryNames : List String :=
  ["helmdependency", "helminstall", "helmlist", "helmuninstall",
   "helmupgrade", "helmrollback", "helmstatus", "helmhistory", "helmget",
   "helmrepo", "helmsearch", "helmshow", "kubernetescreate",
   "kubernetesexpose", "kubernetesrun", "kubernetesset",
   "kubernetesexplain", "kubernetesget", "kubernetesedit",
   "kubernetesdelete", "kubernetesrollout", "kubernetesscale",
   "kubernetesautoscale", "kubernetesclusterinfo", "kubernetestop",
   "kubernetesnodemanagement", "kubernetesdescribe", "kuberneteslogs",
   "kubernetesexec", "kubernetescp", "kubernetesapply",
   "kubernetespatch", "kubernetescrd", "kuberneteslabel",
   "kubernetesannotate", "kubernetespods", "kubernetesevents",
   "kubernetesdeployments", "kubernetesservices", "kubernetesingresses",
   "kubernetessecrets", "kubernetespersistentvolumes", "kubernetesjobs",
   "kubernetescronjobs", "kubernetesroutes", "kubernetesportforwarding"]

/-- Outcome of `POST /tools/.../` for one registered route: the tool's
result dict verbatim with status 200, `noRoute` when no route was
bound for the path (the framework's 404), and `serverFailure` when the
endpoint function raises (the framework's 500 — the per-tool endpoints
in `create_app` do not catch exceptions). -/
inductive ToolRouteResponse where
  | ok (status : Nat) (body : Json)
  | noRoute
  | serverFailure (e : PyExc)
  deriving DecidableEq

/-- Embedding of the per-tool HTTP routes that `create_app` binds: one
`POST /tools/.../` route per tool in registry order (first bound route
wins on a duplicate path), each decoding the JSON body into kwargs
(missing body means an empty dict) and returning `execute`'s dict. -/
def httpToolPost (tools : List Tool) (name : String)
    (body : Option (List (String × Json))) : ToolRouteResponse :=
  match tools.find? (fun t => decide (t.name = name)) with
  | none => .noRoute
  | some t =>
    match t.execute (body.getD []) with
    | .ok result => .ok 200 (.obj result)
    | .error e => .serverFailure e

/-- Backing HTTP server of the stdio bridge, as the bridge observes it:
`GET /tools` and `POST /tools/.../` each either return a parsed JSON
body or raise one of the modelled httpx/other exceptions. -/
structure BridgeEnv where
  getTools : Except PyExc Json
  postTool : String → Json → Except PyExc Json

/-- Python subscript `j[key]`: a `KeyError` (whose `str` is the quoted
key) on a dict miss, a `TypeError` on a non-dict. -/
def pyIndexKey (j : Json) (key : String) : Except PyExc Json :=
  match j with
  | .obj fs =>
    match lookupField fs key with
    | some v => .ok v
    | none => .error (.otherError ("'" ++ key ++ "'"))
  | other =>
      .error (.otherError
        ("'" ++ pyTypeName other ++ "' object is not subscriptable"))

/-- One bridge `tools/list` entry: the name from the backing listing,
a shortened description with `kubernetes` replaced by `K8s `, and the
minimal object schema. -/
def bridgeToolEntry (toolInfo : Json) : Except PyExc Json :=
  match pyIndexKey toolInfo "name" with
  | .error e => .error e
  | .ok (.str s) =>
      .ok (.obj [("name", .str s),
        ("description", .str (s.replace "kubernetes" "K8s ")),
        ("inputSchema", .obj [("type", .str "object")])])
  | .ok other =>
      .error (.attributeError
        ("'" ++ pyTypeName other ++ "' object has no attribute 'replace'"))

/-- Bridge `tools/list` entries for each element of the backing
listing's `tools` array. -/
def bridgeEntriesList : List Json → Except PyExc (List Json)
  | [] => .ok []
  | x :: xs =>
    match bridgeToolEntry x with
    | .error e => .error e
    | .ok entry =>
      match bridgeEntriesList xs with
      | .error e => .error e
      | .ok rest => .ok (entry :: rest)

/-- Iteration over the backing listing's `tools` value (a `TypeError`
when it is not a list). -/
def bridgeEntriesOf : Json → Except PyExc (List Json)
  | .arr xs => bridgeEntriesList xs
  | other =>
      .error (.otherError ("'" ++ pyTypeName other ++ "' object is not iterable"))

/-- Error response of the bridge's `except` chain: httpx status errors
and network errors get their fixed prefixes, any other exception is
reported as its bare `str(e)`; every case is code -32603. -/
def bridgeExcResponse (requestId : Json) : PyExc → Json
  | .httpStatusError m => mkError requestId (-32603) ("HTTP error: " ++ m)
  | .httpNetworkError m => mkError requestId (-32603) ("Network error: " ++ m)
  | e => mkError requestId (-32603) e.message

/-- Body of the bridge's `try` block: only `initialize`, `tools/list`
and `tools/call` are recognized (there is no `initialized` branch);
anything else falls through to the -32601 response. -/
def bridgeTryBody (env : BridgeEnv) (method : Option Json) (params : Json)
    (requestId : Json) : Except PyExc Json :=
  if method = some (.str "initialize") then
    .ok (mkResult requestId (.obj [
      ("protocolVersion", .str "2024-11-05"),
      ("capabilities", .obj [("tools", .obj [])]),
      ("serverInfo", .obj [("name", .str "uber-mcp-server"),
        ("version", .str "0.1.0")])]))
  else if method = some (.str "tools/list") then
    match env.getTools with
    | .error e => .error e
    | .ok toolsData =>
      match pyIndexKey toolsData "tools" with
      | .error e => .error e
      | .ok listing =>
        match bridgeEntriesOf listing with
        | .error e => .error e
        | .ok entries =>
            .ok (mkResult requestId (.obj [("tools", .arr entries)]))
  else if method = some (.str "tools/call") then
    match pyDictGet params "name" with
    | .error e => .error e
    | .ok toolName =>
      match pyDictGet params "arguments" with
      | .error e => .error e
      | .ok argsOpt =>
        let toolArgs := argsOpt.getD (.obj [])
        match env.postTool (pyStrOpt toolName) toolArgs with
        | .error e => .error e
        | .ok result =>
            .ok (mkResult requestId (.obj [
              ("content", .arr [.obj [("type", .str "text"),
                ("text", .str (jsonDumps result))]])]))
  else
    .ok (mkError requestId (-32601)
      ("Method not found: " ++ pyStrOpt method))

/-- Embedding of `SimpleMCPBridge.handle_request`: the `method`,
`params` and `id` accesses stand before the `try` block, so they can
raise out of the handler (an `Except.error`, which the read loop only
logs); everything inside the `try` is converted to a JSON-RPC response
by the `except` chain. -/
def bridgeHandleRequest (env : BridgeEnv) (request : Json) :
    Except PyExc Json :=
  match request with
  | .obj fs =>
    let method := lookupField fs "method"
    let params := (lookupField fs "params").getD (.obj [])
    let requestId := (lookupField fs "id").getD .null
    match bridgeTryBody env method params requestId with
    | .ok resp => .ok resp
    | .error e => .ok (bridgeExcResponse requestId e)
  | other =>
      .error (.attributeError
        ("'" ++ pyTypeName other ++ "' object has no attribute 'get'"))

/-- Port-forward registration record, the value stored in the
process-wide forward map. -/
structure PFInfo where
  podName : String
  namespaceName : String
  localPort : Int
  remotePort : Int
  status : String
  deriving DecidableEq

/-- State of `KubernetesPortForwardingTool`: the `_active_forwards`
dict (insertion-ordered, keyed by forward id) plus a draw counter for
the modelled uuid source. All map mutations happen under one lock in
the source; the embedding makes each operation a state transition. -/
structure PFState where
  activeForwards : List (String × PFInfo)
  uuidCounter : Nat
  deriving DecidableEq

/-- Outcome of `read_namespaced_pod` as the tool distinguishes it: a
pod with some phase, an `ApiException` with status 404, or any other
`ApiException` (which the tool re-raises). -/
inductive PodResult where
  | phase (s : String)
  | notFound404
  | apiFailure (msg : String)
  deriving DecidableEq

/-- External collaborators of the port-forward tool: local socket
availability, the Kubernetes pod lookup, and the uuid generator
(modelled as an indexed stream drawn by a counter; `uuid4` is random,
so freshness claims over it take an injectivity hypothesis). -/
structure PFEnv where
  portAvailable : Int → Bool
  readPod : String → String → PodResult
  uuidGen : Nat → String

/-- Embedding of `_validate_port`. -/
def pfValidatePort (port : Int) : Bool :=
  decide (1 ≤ port) && decide (port ≤ 65535)

/-- Insertion-ordered dict update (replace an existing key in place,
append a new one), as Python dict assignment. -/
def assocSet : List (String × PFInfo) → String → PFInfo →
    List (String × PFInfo)
  | [], k, v => [(k, v)]
  | (k', v') :: rest, k, v =>
    if k' = k then (k, v) :: rest else (k', v') :: assocSet rest k v

/-- Dict deletion by key, order-preserving. -/
def assocDel (fs : List (String × PFInfo)) (k : String) :
    List (String × PFInfo) :=
  fs.filter (fun p => decide (p.1 ≠ k))

/-- Dict lookup in the forward map. -/
def pfLookup : List (String × PFInfo) → String → Option PFInfo
  | [], _ => none
  | (k, v) :: fs, key => if k = key then some v else pfLookup fs key

/-- Embedding of `_start_port_forward`: port validation first, then
local-port availability, then the pod lookup, and only then the
registration of a fresh forward id under the lock. -/
def pfStart (env : PFEnv) (st : PFState) (p ns : String) (lp rp : Int) :
    Except PyExc (List (String × Json) × PFState) :=
  if !pfValidatePort lp then
    .ok ([("error", .str ("Invalid local port: " ++ toString lp ++
      ". Must be between 1 and 65535"))], st)
  else if !pfValidatePort rp then
    .ok ([("error", .str ("Invalid remote port: " ++ toString rp ++
      ". Must be between 1 and 65535"))], st)
  else if !env.portAvailable lp then
    .ok ([("error", .str ("Local port " ++ toString lp ++
      " is already in use"))], st)
  else
    match env.readPod p ns with
    | .phase ph =>
      if ph ≠ "Running" then
        .ok ([("error", .str ("Pod '" ++ p ++ "' is not running (status: " ++
          ph ++ ")"))], st)
      else
        let fid := env.uuidGen st.uuidCounter
        let st' : PFState :=
          ⟨assocSet st.activeForwards fid ⟨p, ns, lp, rp, "active"⟩,
           st.uuidCounter + 1⟩
        .ok ([("status", .str "active"), ("forward_id", .str fid),
          ("pod_name", .str p), ("namespace", .str ns),
          ("local_port", .num lp), ("remote_port", .num rp)], st')
    | .notFound404 =>
        .ok ([("error", .str ("Pod '" ++ p ++ "' not found in namespace '" ++
          ns ++ "'"))], st)
    | .apiFailure m => .error (.otherError m)

/-- Embedding of `_handle_start_action`: truthiness check of the four
required kwargs, string type checks, the redundant `None` checks, the
`int` conversions, then `_start_port_forward`. -/
def pfHandleStart (env : PFEnv) (st : PFState)
    (kwargs : List (String × Json)) :
    Except PyExc (List (String × Json) × PFState) :=
  let podName := lookupField kwargs "pod_name"
  let ns := lookupField kwargs "namespace"
  let lp := lookupField kwargs "local_port"
  let rp := lookupField kwargs "remote_port"
  if !(pyTruthy podName && pyTruthy ns && pyTruthy lp && pyTruthy rp) then
    .ok ([("error", .str ("Missing required parameters. Need: pod_name, " ++
      "namespace, local_port, remote_port"))], st)
  else
    match podName, ns with
    | some (.str p), some (.str n) =>
      if lp = none ∨ rp = none then
        .ok ([("error", .str "local_port and remote_port must not be None")], st)
      else
        match pyToInt (lp.getD .null), pyToInt (rp.getD .null) with
        | some lpi, some rpi => pfStart env st p n lpi rpi
        | _, _ =>
            .ok ([("error", .str "local_port and remote_port must be integers")],
              st)
    | _, _ =>
        .ok ([("error", .str "pod_name and namespace must be strings")], st)

/-- Embedding of `_stop_port_forward` together with the raw key
membership test (`forward_id not in self._active_forwards`): only a
string can be a key of the map. -/
def pfStop (st : PFState) (fidJson : Json) :
    List (String × Json) × PFState :=
  match fidJson with
  | .str s =>
    match pfLookup st.activeForwards s with
    | none => ([("error", .str ("Forward ID '" ++ s ++ "' not found"))], st)
    | some _ =>
        ([("status", .str "stopped"), ("forward_id", .str s)],
         ⟨assocDel st.activeForwards s, st.uuidCounter⟩)
  | other =>
      ([("error", .str ("Forward ID '" ++ pyStr other ++ "' not found"))], st)

/-- Embedding of `_handle_stop_action`. -/
def pfHandleStop (st : PFState) (kwargs : List (String × Json)) :
    List (String × Json) × PFState :=
  let fid := lookupField kwargs "forward_id"
  if !pyTruthy fid then
    ([("error", .str "Missing required parameter: forward_id")], st)
  else pfStop st (fid.getD .null)

/-- Embedding of `_list_port_forwards`: one entry per registration,
insertion order, `forward_id` first then the stored fields. -/
def pfListForwards (st : PFState) : List (String × Json) :=
  [("forwards", .arr (st.activeForwards.map (fun fi =>
    .obj [("forward_id", .str fi.1), ("pod_name", .str fi.2.podName),
      ("namespace", .str fi.2.namespaceName),
      ("local_port", .num fi.2.localPort),
      ("remote_port", .num fi.2.remotePort),
      ("status", .str fi.2.status)])))]

/-- Embedding of `KubernetesPortForwardingTool.execute`: the action is
looked up with default `start` and dispatched through the handler
table; each handler is called as `handler(**kwargs)`, so the `list`
handler — declared with no parameters — raises a `TypeError` whenever
`kwargs` is non-empty, which is always the case on the `list` branch
(the branch requires an explicit `action` key). -/
def pfExecute (env : PFEnv) (st : PFState) (kwargs : List (String × Json)) :
    Except PyExc (List (String × Json) × PFState) :=
  let action := (lookupField kwargs "action").getD (.str "start")
  if action = Json.str "start" then pfHandleStart env st kwargs
  else if action = Json.str "stop" then .ok (pfHandleStop st kwargs)
  else if action = Json.str "list" then
    match kwargs with
    | [] => .ok (pfListForwards st, st)
    | (k, _) :: _ =>
        .error (.otherError
          ("KubernetesPortForwardingTool._list_port_forwards() got an " ++
           "unexpected keyword argument '" ++ k ++ "'"))
  else
    .ok ([("error", .str ("Unknown action: " ++ pyStr action ++
      ". Valid actions: start, stop, list"))], st)

/-- ASCII lowercase of one character. -/
def charLower (c : Char) : Char :=
  if 'A' ≤ c ∧ c ≤ 'Z' then Char.ofNat (c.toNat + 32) else c

/-- ASCII lowercase of a string (models Python `str.lower` on the
ASCII messages the tool produces). -/
def strLower (s : String) : String :=
  ⟨s.data.map charLower⟩

/-- Whether the pattern stands at the head of the text. -/
def strStarts : List Char → List Char → Bool
  | [], _ => true
  | _ :: _, [] => false
  | p :: ps, c :: cs => p == c && strStarts ps cs

/-- Whether the pattern occurs anywhere in the text. -/
def strFindSub : List Char → List Char → Bool
  | pat, [] => strStarts pat []
  | pat, c :: cs => strStarts pat (c :: cs) || strFindSub pat cs

/-- Substring test (models Python `pat in s`). -/
def strIncl (pat s : String) : Bool :=
  strFindSub pat.data s.data

/-- Declarative per-name schema table readback of the `tools/list`
conditional, the spec's description of it ("a declarative, centrally
maintained schema table keyed by tool name, with a safe fallback"):
one entry per specifically recognized tool name, in branch order, the
three names of the final membership branch sharing one schema. -/
def recognizedSchemaTable : List (String × Json) :=
  [("helminstall", schemaHelmInstall), ("helmlist", schemaHelmList),
   ("helmuninstall", schemaHelmUninstall), ("helmupgrade", schemaHelmUpgrade),
   ("helmrollback", schemaHelmRollback), ("helmstatus", schemaHelmStatus),
   ("helmhistory", schemaHelmHistory), ("helmget", schemaHelmGet),
   ("helmrepo", schemaHelmRepo), ("helmsearch", schemaHelmSearch),
   ("helmshow", schemaHelmShow), ("kubernetescreate", schemaK8sCreate),
   ("kubernetesexpose", schemaK8sExpose), ("kubernetesrun", schemaK8sRun),
   ("kubernetesset", schemaK8sSet), ("kubernetesget", schemaK8sGet),
   ("kubernetesdelete", schemaK8sDelete), ("kubernetesscale", schemaK8sScale),
   ("kubernetesdescribe", schemaK8sDescribe), ("kuberneteslogs", schemaK8sLogs),
   ("kubernetesexec", schemaK8sExec), ("kubernetesapply", schemaK8sApply),
   ("kubernetesportforwarding", schemaK8sPortForwarding),
   ("kubernetesexplain", schemaK8sExplain), ("kubernetesedit", schemaK8sEdit),
   ("kubernetesrollout", schemaK8sRollout),
   ("kubernetesautoscale", schemaK8sAutoscale),
   ("kubernetesclusterinfo", schemaK8sClusterInfo),
   ("kubernetestop", schemaK8sTop),
   ("kubernetesnodemanagement", schemaK8sNodeManagement),
   ("kubernetescp", schemaK8sCp), ("kubernetespatch", schemaK8sPatch),
   ("kuberneteslabel", schemaK8sLabel),
   ("kubernetesannotate", schemaK8sAnnotate),
   ("kubernetespods", schemaNamespaceFilter),
   ("kubernetesdeployments", schemaNamespaceFilter),
   ("kubernetesservices", schemaNamespaceFilter)]

/-- Tool names the `tools/list` conditional specifically recognizes. -/
def recognizedNames : List String :=
  recognizedSchemaTable.map Prod.fst

/-- Name field of a `tools/list` entry. -/
def entryNameField (e : Json) : Option Json :=
  match e with
  | .obj fs => lookupField fs "name"
  | _ => none

/-- Test environment for the port-forward tool: every local port free,
every pod Running, uuids drawn as `uuid-k`. -/
def pfEnvTest : PFEnv :=
  ⟨fun _ => true, fun _ _ => .phase "Running", fun k => "uuid-" ++ toString k⟩

/-- Empty initial port-forward state. -/
def pfState0 : PFState := ⟨[], 0⟩

/-- Test tool whose execute raises a generic exception. -/
def toolBoomOther : Tool := ⟨"t", fun _ => .error (.otherError "boom")⟩

/-- Test tool whose execute raises an `AttributeError`. -/
def toolBoomAttr : Tool := ⟨"t2", fun _ => .error (.attributeError "boom")⟩

/-- Test tool echoing its arguments. -/
def toolEcho : Tool := ⟨"alpha", fun args => .ok [("echo", .obj args)]⟩

/-- Bridge environment whose backing server is never reached. -/
def bridgeEnvNull : BridgeEnv :=
  ⟨.error (.otherError "unused"), fun _ _ => .error (.otherError "unused")⟩

/-- Registry-shaped tool list: the 46 registered names with opaque
execute bodies (the dispatcher's `tools/list` only reads names). -/
def registryTools : List Tool :=
  registryNames.map (fun n => ⟨n, fun _ => .ok []⟩)

/-- Whether a JSON value is an object (the only body shape whose
`.get` accesses succeed in `handle_message`). -/
def isObjJson : Json → Bool
  | .obj _ => true
  | _ => false

theorem findTool_str (tools : List Tool) (n : String) :
    findTool tools (some (.str n))
      = tools.find? (fun t => decide (t.name = n)) := by
  unfold findTool
  congr 1
  funext t
  rw [decide_eq_decide]
  simp [eq_comm]

theorem handleMessage_dispatch (tools : List Tool) (m : Json)
    (fs : List (String × Json)) (requestId : Json) (r : Json)
    (hm : handleMethod tools (some m) (.obj fs) requestId = .ok r) :
    handleMessage tools
      (some (.obj [("method", m), ("params", .obj fs), ("id", requestId)]))
      = ⟨200, r⟩ := by
  have h1 : handleMessage tools
      (some (.obj [("method", m), ("params", .obj fs), ("id", requestId)]))
      = match handleMethod tools (some m) (.obj fs) requestId with
        | .ok resp => ⟨200, resp⟩
        | .error e => ⟨500, internalErrorBody e.message⟩ := rfl
  rw [h1, hm]

/-- C6: every request body submitted to `POST /mcp/v1/message` that is
not valid JSON (the `json.loads` failure case, modelled by `none`)
yields HTTP status 400 with a JSON-RPC error body of code -32700 and
message "Parse error", whatever tools are registered. -/
theorem c6_parse_error (tools : List Tool) :
    handleMessage tools none
      = ⟨400, .obj [("jsonrpc", .str "2.0"),
          ("error", .obj [("code", .num (-32700)),
            ("message", .str "Parse error")])]⟩ := rfl

/-- C7: a JSON-RPC request whose method is none of `initialize`,
`initialized`, `tools/list`, `tools/call` — including an absent method
and a non-string method value — always gets error -32601 with message
"Method not found: " followed by the rendered method, for every
`params` value and every request id. -/
theorem c7_method_not_found (tools : List Tool) (method : Option Json)
    (params requestId : Json)
    (h1 : method ≠ some (.str "initialize"))
    (h2 : method ≠ some (.str "initialized"))
    (h3 : method ≠ some (.str "tools/list"))
    (h4 : method ≠ some (.str "tools/call")) :
    handleMethod tools method params requestId
      = .ok (mkError requestId (-32601)
          ("Method not found: " ++ pyStrOpt method)) := by
  unfold handleMethod
  rw [if_neg h1, if_neg h2, if_neg h3, if_neg h4]

/-- C7 witness: the unknown method `resources/list` with a non-object
`params` value gets the -32601 response. -/
theorem c7_method_not_found_witness :
    handleMethod [] (some (.str "resources/list")) (.arr [.num 1]) (.num 4)
      = .ok (mkError (.num 4) (-32601)
          ("Method not found: " ++ pyStrOpt (some (.str "resources/list")))) :=
  c7_method_not_found [] (some (.str "resources/list")) (.arr [.num 1])
    (.num 4) (by decide) (by decide) (by decide) (by decide)

/-- C10: a body of `POST /mcp/v1/message` that is valid JSON but not a
JSON object takes the attribute-access failure path: HTTP 500 with a
-32603 error body, not the 400 parse-error response with code -32700. -/
theorem c10_non_object_body (tools : List Tool) (j : Json)
    (h : isObjJson j = false) :
    handleMessage tools (some j)
      = ⟨500, internalErrorBody
          ("'" ++ pyTypeName j ++ "' object has no attribute 'get'")⟩
    ∧ (500 : Nat) ≠ 400
    ∧ internalErrorBody
        ("'" ++ pyTypeName j ++ "' object has no attribute 'get'")
        ≠ parseErrorBody := by
  refine ⟨?_, by decide, ?_⟩
  · cases j with
    | obj fs => simp [isObjJson] at h
    | str s => rfl
    | num n => rfl
    | bool b => rfl
    | null => rfl
    | arr xs => rfl
  · simp [internalErrorBody, parseErrorBody]

/-- C10 witness: the JSON array body `[]` gets the 500 response with code -32603. -/
theorem c10_non_object_body_witness :
    handleMessage [] (some (.arr []))
      = ⟨500, internalErrorBody
          ("'" ++ pyTypeName (.arr []) ++ "' object has no attribute 'get'")⟩
    ∧ (500 : Nat) ≠ 400
    ∧ internalErrorBody
        ("'" ++ pyTypeName (.arr []) ++ "' object has no attribute 'get'")
        ≠ parseErrorBody :=
  c10_non_object_body [] (.arr []) rfl

/-- C2: a `tools/call` whose `name` parameter is the name of no
registered tool returns error -32602 with message "Tool not found:"
and the name, and the response carries no `result` field. -/
theorem c2_tool_not_found (tools : List Tool) (fs : List (String × Json))
    (n : String) (requestId : Json)
    (hname : lookupField fs "name" = some (.str n))
    (habs : ∀ t ∈ tools, t.name ≠ n) :
    handleMethod tools (some (.str "tools/call")) (.obj fs) requestId
      = .ok (mkError requestId (-32602) ("Tool not found: " ++ n))
    ∧ jsonHasKey (mkError requestId (-32602) ("Tool not found: " ++ n))
        "result" = false := by
  constructor
  · have hred : handleMethod tools (some (.str "tools/call")) (.obj fs)
        requestId
        = (match findTool tools (lookupField fs "name") with
           | none => .ok (mkError requestId (-32602)
               ("Tool not found: " ++ pyStrOpt (lookupField fs "name")))
           | some t => .ok (callOutcomeResponse requestId
               (callToolExecute t
                 ((lookupField fs "arguments").getD (.obj []))))) := rfl
    have hfind : findTool tools (some (.str n)) = none := by
      apply List.find?_eq_none.mpr
      intro t ht
      simp only [decide_eq_true_eq, Option.some.injEq, Json.str.injEq]
      exact fun hh => habs t ht hh.symm
    rw [hred, hname, hfind]
    simp only [pyStrOpt, pyStr]
  · rfl

/-- C2 witness: the spec's end-to-end example, `tools/call` with name
`nonexistent` and id 5 against an empty registry. -/
theorem c2_tool_not_found_witness :
    handleMethod [] (some (.str "tools/call"))
      (.obj [("name", .str "nonexistent"), ("arguments", .obj [])]) (.num 5)
      = .ok (mkError (.num 5) (-32602) "Tool not found: nonexistent")
    ∧ jsonHasKey (mkError (.num 5) (-32602) "Tool not found: nonexistent")
        "result" = false :=
  c2_tool_not_found [] [("name", .str "nonexistent"), ("arguments", .obj [])]
    "nonexistent" (.num 5) rfl (by simp)

/-- Error envelope a `tools/call` dispatch produces from a raised
exception: -32602 with the "Tool configuration error: " prefix for an
`AttributeError`, -32603 with the "Tool execution error: " prefix for
every other exception. -/
def toolExcResponse (requestId : Json) : PyExc → Json
  | .attributeError m =>
      mkError requestId (-32602) ("Tool configuration error: " ++ m)
  | e => mkError requestId (-32603) ("Tool execution error: " ++ e.message)

/-- C1 counterexample: a tool raising a generic exception with message
`boom` gets a -32603 error whose message is "Tool execution error: boom",
not the exception's message `boom`; and a tool raising an
`AttributeError` gets code -32602, not -32603. -/
theorem c1_counterexample :
    (handleMethod [toolBoomOther] (some (.str "tools/call"))
        (.obj [("name", .str "t"), ("arguments", .obj [])]) (.num 1)
        = .ok (mkError (.num 1) (-32603) "Tool execution error: boom")
      ∧ ("Tool execution error: boom" : String) ≠ "boom")
    ∧ (handleMethod [toolBoomAttr] (some (.str "tools/call"))
        (.obj [("name", .str "t2"), ("arguments", .obj [])]) (.num 2)
        = .ok (mkError (.num 2) (-32602) "Tool configuration error: boom")
      ∧ ((-32602 : Int) ≠ -32603)) := by
  refine ⟨⟨rfl, by decide⟩, rfl, by decide⟩

/-- C1 (amended): an exception raised by a tool's execute during a
`tools/call` dispatch never propagates — the dispatcher returns a
normal JSON-RPC error response (HTTP 200 on the message endpoint):
code -32602 with message "Tool configuration error: " before the
exception's message for an `AttributeError`, and code -32603 with
message "Tool execution error: " before the exception's message for
every other exception. -/
theorem c1_tool_exception_contained (tools : List Tool)
    (fs : List (String × Json)) (n : String) (args : List (String × Json))
    (requestId : Json) (t : Tool) (e : PyExc)
    (hname : lookupField fs "name" = some (.str n))
    (hargs : lookupField fs "arguments" = some (.obj args))
    (hfind : findTool tools (some (.str n)) = some t)
    (hexec : t.execute args = .error e) :
    handleMethod tools (some (.str "tools/call")) (.obj fs) requestId
      = .ok (toolExcResponse requestId e)
    ∧ handleMessage tools (some (.obj [("method", .str "tools/call"),
        ("params", .obj fs), ("id", requestId)]))
      = ⟨200, toolExcResponse requestId e⟩ := by
  have hm : handleMethod tools (some (.str "tools/call")) (.obj fs) requestId
      = .ok (toolExcResponse requestId e) := by
    have hred : handleMethod tools (some (.str "tools/call")) (.obj fs)
        requestId
        = (match findTool tools (lookupField fs "name") with
           | none => .ok (mkError requestId (-32602)
               ("Tool not found: " ++ pyStrOpt (lookupField fs "name")))
           | some t => .ok (callOutcomeResponse requestId
               (callToolExecute t
                 ((lookupField fs "arguments").getD (.obj []))))) := rfl
    rw [hred, hname, hargs, hfind]
    show Except.ok (callOutcomeResponse requestId (t.execute args)) = _
    rw [hexec]
    cases e <;> exact rfl
  exact ⟨hm, handleMessage_dispatch tools _ fs requestId _ hm⟩

/-- C1 witness: the amended statement at the generic-exception test
tool. -/
theorem c1_tool_exception_contained_witness :
    handleMethod [toolBoomOther] (some (.str "tools/call"))
      (.obj [("name", .str "t"), ("arguments", .obj [])]) (.num 1)
      = .ok (toolExcResponse (.num 1) (.otherError "boom"))
    ∧ handleMessage [toolBoomOther] (some (.obj [("method", .str "tools/call"),
        ("params", .obj [("name", .str "t"), ("arguments", .obj [])]),
        ("id", .num 1)]))
      = ⟨200, toolExcResponse (.num 1) (.otherError "boom")⟩ :=
  c1_tool_exception_contained [toolBoomOther]
    [("name", .str "t"), ("arguments", .obj [])] "t" [] (.num 1)
    toolBoomOther (.otherError "boom") rfl rfl rfl rfl

/-- C3: for a registered name, a JSON-RPC `tools/call` and an HTTP
`POST /tools/.../` route invoke the same underlying capability — the
first registered tool with that name, its execute applied to the same
arguments mapping — so both transports' responses are images of the
one tool-level outcome under their respective envelopes. -/
theorem c3_transport_equivalence (tools : List Tool) (n : String)
    (args : List (String × Json)) (requestId : Json) (t : Tool)
    (hfind : tools.find? (fun t => decide (t.name = n)) = some t) :
    handleMethod tools (some (.str "tools/call"))
      (.obj [("name", .str n), ("arguments", .obj args)]) requestId
      = .ok (callOutcomeResponse requestId (t.execute args))
    ∧ httpToolPost tools n (some args)
      = (match t.execute args with
         | .ok result => .ok 200 (.obj result)
         | .error e => .serverFailure e) := by
  constructor
  · have hred : handleMethod tools (some (.str "tools/call"))
        (.obj [("name", .str n), ("arguments", .obj args)]) requestId
        = (match findTool tools (some (.str n)) with
           | none => .ok (mkError requestId (-32602)
               ("Tool not found: " ++ pyStrOpt (some (.str n))))
           | some t => .ok (callOutcomeResponse requestId
               (callToolExecute t (.obj args)))) := rfl
    rw [hred, findTool_str, hfind]
    exact rfl
  · unfold httpToolPost
    rw [hfind]
    exact rfl

/-- C3 witness: both transports at the echo test tool. -/
theorem c3_transport_equivalence_witness :
    handleMethod [toolEcho] (some (.str "tools/call"))
      (.obj [("name", .str "alpha"), ("arguments", .obj [])]) (.num 3)
      = .ok (callOutcomeResponse (.num 3) (toolEcho.execute []))
    ∧ httpToolPost [toolEcho] "alpha" (some [])
      = (match toolEcho.execute [] with
         | .ok result => .ok 200 (.obj result)
         | .error e => .serverFailure e) :=
  c3_transport_equivalence [toolEcho] "alpha" [] (.num 3) toolEcho rfl

/-- C4 counterexample: on the stdio bridge a request with method
`initialized` gets a -32601 method-not-found error, not the empty
success result the claim requires of both transports. -/
theorem c4_counterexample :
    bridgeHandleRequest bridgeEnvNull
      (.obj [("method", .str "initialized"), ("id", .num 7)])
      = .ok (mkError (.num 7) (-32601) "Method not found: initialized")
    ∧ (Except.ok (mkError (.num 7) (-32601) "Method not found: initialized")
        : Except PyExc Json)
      ≠ .ok (mkResult (.num 7) (.obj [])) := by
  refine ⟨rfl, by decide⟩

/-- C4 (amended): the HTTP dispatcher accepts all four methods — in
particular `initialized` returns the empty success result — while the
stdio bridge recognizes only `initialize`, `tools/list` and
`tools/call`, and answers `initialized` with a -32601
method-not-found error, for every backing environment. -/
theorem c4_method_sets (tools : List Tool) (params requestId : Json)
    (env : BridgeEnv) (requestId2 : Json) :
    handleMethod tools (some (.str "initialized")) params requestId
      = .ok (mkResult requestId (.obj []))
    ∧ bridgeHandleRequest env
        (.obj [("method", .str "initialized"), ("id", requestId2)])
      = .ok (mkError requestId2 (-32601) "Method not found: initialized") :=
  ⟨rfl, rfl⟩

/-- C5: against the registry of `create_app`, the dispatcher's
`tools/list` result has exactly one entry per registered name, the
entries in registry insertion order, and each entry's `inputSchema`
equal to the per-name hard-coded schema exactly for the specifically
recognized names and to the generic permissive fallback for all other
names. -/
theorem c5_tools_list (tools : List Tool) (params requestId : Json)
    (h : tools.map Tool.name = registryNames) :
    handleMethod tools (some (.str "tools/list")) params requestId
      = .ok (mkResult requestId
          (.obj [("tools", .arr (toolsListEntries registryNames))]))
    ∧ (∀ n ∈ registryNames,
        ((toolsListEntries registryNames).filter
          (fun e => decide (entryNameField e = some (.str n)))).length = 1)
    ∧ (toolsListEntries registryNames).map entryNameField
        = registryNames.map (fun n => some (Json.str n))
    ∧ (∀ n ∈ registryNames,
        toolSchemaFor n
          = (lookupField recognizedSchemaTable n).getD genericSchema)
    ∧ (∀ n ∈ registryNames,
        (lookupField recognizedSchemaTable n = none
          ↔ toolSchemaFor n = genericSchema)) := by
  refine ⟨?_, by decide, by decide, by decide, by decide⟩
  unfold handleMethod
  rw [if_neg (by decide), if_neg (by decide), if_pos rfl, h]

/-- C5 witness: the registry-shaped tool list. -/
theorem c5_tools_list_witness :
    handleMethod registryTools (some (.str "tools/list")) (.obj []) (.num 2)
      = .ok (mkResult (.num 2)
          (.obj [("tools", .arr (toolsListEntries registryNames))]))
    ∧ (∀ n ∈ registryNames,
        ((toolsListEntries registryNames).filter
          (fun e => decide (entryNameField e = some (.str n)))).length = 1)
    ∧ (toolsListEntries registryNames).map entryNameField
        = registryNames.map (fun n => some (Json.str n))
    ∧ (∀ n ∈ registryNames,
        toolSchemaFor n
          = (lookupField recognizedSchemaTable n).getD genericSchema)
    ∧ (∀ n ∈ registryNames,
        (lookupField recognizedSchemaTable n = none
          ↔ toolSchemaFor n = genericSchema)) :=
  c5_tools_list registryTools (.obj []) (.num 2) rfl

/-- C8 (code bug): starting a forward against a Running pod with free
local port 8080 registers a fresh id and returns status `active`, and
stopping that id removes it — but the intervening `list` action
crashes: `execute` passes its kwargs on to the parameterless
`_list_port_forwards`, so `action="list"` raises a `TypeError` instead
of returning the forwards listing that the repository's own
`test_list_active_port_forwards` expects. -/
theorem c8_list_action_type_error :
    pfExecute pfEnvTest pfState0
      [("pod_name", .str "test-pod"), ("namespace", .str "default"),
       ("local_port", .num 8080), ("remote_port", .num 80)]
      = .ok ([("status", .str "active"), ("forward_id", .str "uuid-0"),
          ("pod_name", .str "test-pod"), ("namespace", .str "default"),
          ("local_port", .num 8080), ("remote_port", .num 80)],
          ⟨[("uuid-0", ⟨"test-pod", "default", 8080, 80, "active"⟩)], 1⟩)
    ∧ pfExecute pfEnvTest
        ⟨[("uuid-0", ⟨"test-pod", "default", 8080, 80, "active"⟩)], 1⟩
        [("action", .str "list")]
      = .error (.otherError
          ("KubernetesPortForwardingTool._list_port_forwards() got an " ++
           "unexpected keyword argument 'action'"))
    ∧ pfExecute pfEnvTest
        ⟨[("uuid-0", ⟨"test-pod", "default", 8080, 80, "active"⟩)], 1⟩
        [("action", .str "stop"), ("forward_id", .str "uuid-0")]
      = .ok ([("status", .str "stopped"), ("forward_id", .str "uuid-0")],
          ⟨[], 1⟩) := by
  refine ⟨rfl, rfl, rfl⟩

/-- C9 counterexample: a start request with `local_port = -1` but an
empty (falsy) `pod_name` string returns the missing-parameters error,
which does not contain "invalid" even case-insensitively. -/
theorem c9_counterexample :
    pfExecute pfEnvTest pfState0
      [("pod_name", .str ""), ("namespace", .str "default"),
       ("local_port", .num (-1)), ("remote_port", .num 80)]
      = .ok ([("error", .str ("Missing required parameters. Need: pod_name, " ++
          "namespace, local_port, remote_port"))], pfState0)
    ∧ strIncl "invalid"
        (strLower ("Missing required parameters. Need: pod_name, " ++
          "namespace, local_port, remote_port")) = false := by
  refine ⟨rfl, by decide⟩

theorem pf_start_invalid_local (env : PFEnv) (st : PFState) (p ns : String)
    (lp rp : Int) (hp : p ≠ "") (hns : ns ≠ "") (hrp : rp ≠ 0)
    (hlpt : lp ≠ 0) (hlpv : pfValidatePort lp = false) :
    pfExecute env st
      [("pod_name", .str p), ("namespace", .str ns),
       ("local_port", .num lp), ("remote_port", .num rp)]
      = .ok ([("error", .str ("Invalid local port: " ++ toString lp ++
          ". Must be between 1 and 65535"))], st) := by
  have hred : pfExecute env st
      [("pod_name", .str p), ("namespace", .str ns),
       ("local_port", .num lp), ("remote_port", .num rp)]
      = (if !(pyTruthy (some (.str p)) && pyTruthy (some (.str ns)) &&
            pyTruthy (some (.num lp)) && pyTruthy (some (.num rp))) then
          .ok ([("error", .str ("Missing required parameters. Need: " ++
            "pod_name, namespace, local_port, remote_port"))], st)
        else pfStart env st p ns lp rp) := rfl
  have h1 : pyTruthy (some (.str p)) = true := by simp [pyTruthy, hp]
  have h2 : pyTruthy (some (.str ns)) = true := by simp [pyTruthy, hns]
  have h3 : pyTruthy (some (.num lp)) = true := by simp [pyTruthy, hlpt]
  have h4 : pyTruthy (some (.num rp)) = true := by simp [pyTruthy, hrp]
  rw [hred, h1, h2, h3, h4]
  unfold pfStart
  rw [hlpv]
  exact rfl

/-- C9 (amended): a start request with `local_port` equal to -1 or
70000, non-empty string `pod_name` and `namespace` and a nonzero
integer `remote_port`, returns the invalid-local-port error (whose
lower-cased text contains "invalid") and leaves the forward map — and
therefore every subsequent operation, `list` included — exactly as it
was; with a falsy or ill-typed parameter the result is a different
error dict, but the map is still unchanged (the counterexample shows
the "invalid" wording is then absent). -/
theorem c9_invalid_local_port (env : PFEnv) (st : PFState) (p ns : String)
    (lp rp : Int) (hp : p ≠ "") (hns : ns ≠ "") (hrp : rp ≠ 0)
    (hlp : lp = -1 ∨ lp = 70000) :
    pfExecute env st
      [("pod_name", .str p), ("namespace", .str ns),
       ("local_port", .num lp), ("remote_port", .num rp)]
      = .ok ([("error", .str ("Invalid local port: " ++ toString lp ++
          ". Must be between 1 and 65535"))], st)
    ∧ strIncl "invalid" (strLower ("Invalid local port: " ++ toString lp ++
        ". Must be between 1 and 65535")) = true := by
  rcases hlp with h | h <;> subst h
  · exact ⟨pf_start_invalid_local env st p ns (-1) rp hp hns hrp
      (by decide) (by decide), by decide⟩
  · exact ⟨pf_start_invalid_local env st p ns 70000 rp hp hns hrp
      (by decide) (by decide), by decide⟩

/-- C9 witness: the amended statement at `local_port = -1` with the
test pod. -/
theorem c9_invalid_local_port_witness :
    pfExecute pfEnvTest pfState0
      [("pod_name", .str "test-pod"), ("namespace", .str "default"),
       ("local_port", .num (-1)), ("remote_port", .num 80)]
      = .ok ([("error", .str ("Invalid local port: " ++ toString (-1 : Int) ++
          ". Must be between 1 and 65535"))], pfState0)
    ∧ strIncl "invalid"
        (strLower ("Invalid local port: " ++ toString (-1 : Int) ++
          ". Must be between 1 and 65535")) = true :=
  c9_invalid_local_port pfEnvTest pfState0 "test-pod" "default" (-1) 80
    (by decide) (by decide) (by decide) (Or.inl rfl)
